import Mathlib

/-!
Verification of the BashTower execution/scheduling core.

Shallow embedding of the Python source (src/models/__init__.py,
src/services/ssh_service.py, src/services/cron_service.py,
src/routes/cronjobs.py, src/routes/jobs.py) as executable Lean
definitions, together with theorems settling the specification claims.

Conventions used by the embedding:
* Database tables are Lean lists of row structures; autoincrement
  primary keys are modelled by explicit counters in the store.
* The outside world (the SSH transport, whether the configured
  encryption key is a valid Fernet key, whether the stored private key
  parses) is passed in as explicit parameters, so every function is a
  pure function of its inputs.
* Python strings are Lean `String`; raw SSH output is a list of byte
  values (`List Nat`).
-/

/-- One row of the `host` table.  Mirrors `class Host` in
src/models/__init__.py: `id`, `name`, `hostname`, `username`, `port`.
Note the source model declares NO `shell` column. -/
structure HostRow where
  id : Nat
  name : String
  hostname : String
  username : String
  port : Nat
deriving DecidableEq

/-- One row of the `template` table (`class Template`). -/
structure TemplateRow where
  id : Nat
  name : String
  content : String
  script_type : String
deriving DecidableEq

/-- One row of the `ssh_key` table (`class SSHKey`): `_private_key` is
the at-rest `private_key` column, written through the encrypting
property setter. -/
structure SSHKeyRow where
  id : Nat
  name : String
  _private_key : String
deriving DecidableEq

/-- One row of the `job` table (`class Job`, the ad-hoc job). -/
structure JobRow where
  id : Nat
  template_name : String
  status : String
deriving DecidableEq

/-- One row of the `job_log` table (`class JobLog`). -/
structure JobLogRow where
  id : Nat
  job_id : Nat
  hostname : String
  stdout : String
  stderr : String
  status : String
deriving DecidableEq

/-- One row of the `cron_job` table (`class CronJob`).  `host_ids` is
the comma-separated frozen host id list; `last_run` a nullable UTC
timestamp (modelled as `Option Nat`). -/
structure CronJobRow where
  id : Nat
  name : String
  schedule : String
  template_id : Nat
  key_id : Nat
  host_ids : String
  enabled : Bool
  last_run : Option Nat
deriving DecidableEq

/-- One row of the `cron_job_log` table (`class CronJobLog`), which
unlike `JobLog` carries a `created_at` timestamp. -/
structure CronLogRow where
  id : Nat
  cron_job_id : Nat
  hostname : String
  stdout : String
  stderr : String
  status : String
  created_at : Nat
deriving DecidableEq

/-- The `app_settings` singleton row (`class AppSettings`), restricted
to the core field `cron_history_limit` (0 = unlimited). -/
structure SettingsRow where
  cron_history_limit : Nat
deriving DecidableEq

/-- The whole observable state of the process: the relational store
(templates, hosts, groups, memberships, keys, jobs, logs, cron jobs,
settings), the APScheduler in-memory trigger set (`triggers`, keyed by
cron job id as in `scheduler.add_job(..., id=str(cron.id))`), and the
module-level `_cron_locks` registry of per-cron-job locks currently
held (`locks`).  `next*Id` model SQLAlchemy autoincrement counters,
`now` models `datetime.utcnow()`. -/
structure St where
  templates : List TemplateRow
  hosts : List HostRow
  groups : List Nat
  memberships : List (Nat × Nat)
  sshKeys : List Nat
  jobs : List JobRow
  jobLogs : List JobLogRow
  crons : List CronJobRow
  cronLogs : List CronLogRow
  settings : Option SettingsRow
  triggers : List Nat
  locks : List Nat
  nextCronId : Nat
  nextJobId : Nat
  nextJobLogId : Nat
  nextCronLogId : Nat
  now : Nat
deriving DecidableEq

/-- Stand-in for a Fernet token of `value` under the configured key.
A Fernet token is an AEAD ciphertext, base64-encoded, always starting
with "gAAAA"; encryption is injective and never returns its input, so
the tag model keeps exactly the properties the claims use (which of
plaintext/ciphertext is stored), without modelling the cipher itself. -/
def fernetEncrypt (value : String) : String :=
  "gAAAAA" ++ value

/-- Model of `encrypt_value` (src/models/__init__.py lines 25-34).
`keyOk` is whether `Fernet(get_encryption_key())` construction succeeds
(i.e. the environment's `BASHTOWER_SECRET_KEY` is a valid Fernet key);
on any exception the source prints the error and RETURNS THE VALUE
AS-IS, so the plaintext is what the caller stores. -/
def encrypt_value (keyOk : Bool) (value : String) : String :=
  if value = "" then value
  else if keyOk then fernetEncrypt value
  else value

/-- Model of `decrypt_value` (src/models/__init__.py lines 36-44): on
any decryption failure the raw stored value is returned unchanged
(legacy plaintext tolerance).  Decryption succeeds exactly on tokens
produced under the same (valid) key, modelled by the token tag. -/
def decrypt_value (keyOk : Bool) (value : String) : String :=
  if value = "" then value
  else if keyOk && value.startsWith ("gAAAAA") then value.drop 6
  else value

/-- The `SSHKey.private_key` property setter (src/models/__init__.py
lines 89-92): `self._private_key = encrypt_value(value)`. -/
def SSHKeyRow.set_private_key (keyOk : Bool) (k : SSHKeyRow) (value : String) : SSHKeyRow :=
  { k with _private_key := encrypt_value keyOk value }

/-- The `SSHKey.private_key` property getter (src/models/__init__.py
lines 84-87): `decrypt_value(self._private_key)`. -/
def SSHKeyRow.get_private_key (keyOk : Bool) (k : SSHKeyRow) : String :=
  decrypt_value keyOk k._private_key

/-- Whether a byte is a UTF-8 continuation byte (0x80-0xBF). -/
def contByte (b : Nat) : Bool :=
  0x80 ≤ b && b ≤ 0xBF

/-- Permitted range of the second byte of a three-byte UTF-8 sequence,
by lead byte; `none` when the lead byte does not start a three-byte
sequence.  0xE0 excludes overlong forms, 0xED excludes surrogates, as
Python's strict codec does. -/
def lead3Range (b : Nat) : Option (Nat × Nat) :=
  if b = 0xE0 then some (0xA0, 0xBF)
  else if 0xE1 ≤ b && b ≤ 0xEC then some (0x80, 0xBF)
  else if b = 0xED then some (0x80, 0x9F)
  else if 0xEE ≤ b && b ≤ 0xEF then some (0x80, 0xBF)
  else none

/-- Permitted range of the second byte of a four-byte UTF-8 sequence,
by lead byte.  0xF0 excludes overlong forms, 0xF4 caps at U+10FFFF. -/
def lead4Range (b : Nat) : Option (Nat × Nat) :=
  if b = 0xF0 then some (0x90, 0xBF)
  else if 0xF1 ≤ b && b ≤ 0xF3 then some (0x80, 0xBF)
  else if b = 0xF4 then some (0x80, 0x8F)
  else none

/-- Strict UTF-8 decoding of a byte list to code points, fuelled (one
unit of fuel per decoded character; each character consumes at least
one byte, so fuel equal to the byte count always suffices).  Returns
`none` exactly when Python's `bytes.decode('utf-8')` raises
`UnicodeDecodeError`. -/
def utf8DecodeFuel : Nat → List Nat → Option (List Char)
  | _, [] => some []
  | 0, _ :: _ => none
  | fuel + 1, b :: rest =>
    if b ≤ 0x7F then
      match utf8DecodeFuel fuel rest with
      | some cs => some (Char.ofNat b :: cs)
      | none => none
    else if 0xC2 ≤ b && b ≤ 0xDF then
      match rest with
      | c1 :: rest2 =>
        if contByte c1 then
          match utf8DecodeFuel fuel rest2 with
          | some cs => some (Char.ofNat ((b - 0xC0) * 64 + (c1 - 0x80)) :: cs)
          | none => none
        else none
      | [] => none
    else
      match lead3Range b with
      | some (lo, hi) =>
        (match rest with
         | c1 :: c2 :: rest3 =>
           if (lo ≤ c1 && c1 ≤ hi) && contByte c2 then
             match utf8DecodeFuel fuel rest3 with
             | some cs =>
               some (Char.ofNat ((b - 0xE0) * 4096 + (c1 - 0x80) * 64 + (c2 - 0x80)) :: cs)
             | none => none
           else none
         | _ => none)
      | none =>
        match lead4Range b with
        | some (lo, hi) =>
          (match rest with
           | c1 :: c2 :: c3 :: rest4 =>
             if ((lo ≤ c1 && c1 ≤ hi) && contByte c2) && contByte c3 then
               match utf8DecodeFuel fuel rest4 with
               | some cs =>
                 some (Char.ofNat
                   ((b - 0xF0) * 262144 + (c1 - 0x80) * 4096 + (c2 - 0x80) * 64 + (c3 - 0x80)) :: cs)
               | none => none
             else none
           | _ => none)
        | none => none

/-- Model of `bytes.decode('utf-8')` as used at
src/services/ssh_service.py lines 101-102: STRICT decoding, `none`
models the raised `UnicodeDecodeError`. -/
def utf8Decode (bs : List Nat) : Option String :=
  match utf8DecodeFuel bs.length bs with
  | some cs => some (String.mk cs)
  | none => none

/-- The behaviour of the SSH transport for one connection attempt,
supplied as an input to the executor: the exceptions `client.connect`
or `exec_command` may raise, or (`connected`) the exit status and the
raw stdout/stderr byte streams the remote command produced. -/
inductive ConnectOutcome where
  | authFail (msg : String)
  | sshError (msg : String)
  | timeoutError (msg : String)
  | otherError (msg : String)
  | connected (exitStatus : Nat) (outBytes errBytes : List Nat)
deriving DecidableEq

/-- The finalised content of the log row written by one SSH execution
(hostname, stdout, stderr, status); the caller attaches the owner
foreign key and the autoincrement id. -/
structure LogResult where
  hostname : String
  stdout : String
  stderr : String
  status : String
deriving DecidableEq

/-- Attribute access `host_obj.shell`.  The `Host` model in
src/models/__init__.py (lines 67-75) declares NO `shell` column, so
this access raises `AttributeError` on every `Host` instance; modelled
as `none`. -/
def hostShell (_ : HostRow) : Option String :=
  none

/-- Interpreter choice of src/services/ssh_service.py line 94:
`'python3 -' if script_type == 'python' else host_obj.shell`; `none`
models the `AttributeError` from the missing `shell` attribute. -/
def interpreterFor (host : HostRow) (script_type : String) : Option String :=
  if script_type == "python" then some ("python3 -") else hostShell host

/-- Model of `execute_ssh_command` (src/services/ssh_service.py lines
43-135).  `keyParses` is whether `parse_private_key` succeeds on the
decrypted key (one of RSA/Ed25519/ECDSA parses); `conn` is the
transport behaviour.  The row is created with status `running` and
finalised exactly once; only the finalised row is observable here.
Error classification follows the source's except clauses; note that
`parse_private_key`'s `ValueError`, the missing-`shell`
`AttributeError` and the strict decode's `UnicodeDecodeError` are all
caught by the generic `except Exception` branch (status
`connection_failed`, stderr `"Error: ..."`). -/
def execute_ssh_command (keyParses : Bool) (conn : ConnectOutcome)
    (host : HostRow) (script_type : String) : LogResult :=
  let base : LogResult :=
    { hostname := host.hostname, stdout := "", stderr := "", status := "running" }
  if !keyParses then
    { base with status := "connection_failed",
                stderr := "Error: Unable to parse private key. Supported types: RSA, Ed25519, ECDSA" }
  else
    match conn with
    | .authFail m =>
      { base with status := "connection_failed", stderr := "Authentication Error: " ++ m }
    | .sshError m =>
      { base with status := "connection_failed", stderr := "SSH Error: " ++ m }
    | .timeoutError m =>
      { base with status := "connection_failed", stderr := "Connection Timeout: " ++ m }
    | .otherError m =>
      { base with status := "connection_failed", stderr := "Error: " ++ m }
    | .connected exitStatus outBytes errBytes =>
      match interpreterFor host script_type with
      | none =>
        { base with status := "connection_failed",
                    stderr := "Error: Host object has no attribute shell" }
      | some _ =>
        match utf8Decode outBytes with
        | none =>
          { base with status := "connection_failed", stderr := "Error: UnicodeDecodeError" }
        | some outStr =>
          match utf8Decode errBytes with
          | none =>
            { base with status := "connection_failed", stderr := "Error: UnicodeDecodeError" }
          | some errStr =>
            { base with stdout := outStr, stderr := errStr,
                        status := if exitStatus == 0 then "success" else "error" }

/-- Split a character list at every separator position (Python
`str.split(sep)` semantics: n separators yield n+1 pieces), written by
structural recursion so that the kernel can evaluate it. -/
def splitChars (p : Char → Bool) : List Char → List (List Char)
  | [] => [[]]
  | c :: rest =>
    match splitChars p rest with
    | [] => [[c]]
    | grp :: rs => if p c then [] :: grp :: rs else (c :: grp) :: rs

/-- Python `str.strip()`: drop leading and trailing whitespace. -/
def pyStrip (s : String) : String :=
  String.mk (((s.data.dropWhile Char.isWhitespace).reverse.dropWhile
    Char.isWhitespace).reverse)

/-- Python `str.split()` with no argument: split on whitespace runs,
discarding empty pieces. -/
def splitWs (s : String) : List String :=
  ((splitChars Char.isWhitespace s.data).map String.mk).filter (fun t => t ≠ "")

/-- Python `str.split(sep)` for a single-character separator. -/
def pySplitOn (c : Char) (s : String) : List String :=
  (splitChars (fun ch => ch == c) s.data).map String.mk

/-- Python `int(s)` restricted to digit strings, as `Option`: the
numeric value of a non-empty all-digit string, else `none`. -/
def charsToNat? (s : String) : Option Nat :=
  if s.data = [] then none
  else if s.data.all Char.isDigit then
    some (s.data.foldl (fun acc c => acc * 10 + (c.toNat - 48)) 0)
  else none

/-- One numeric bounds pair for a cron field. -/
structure FieldRange where
  lo : Nat
  hi : Nat
deriving DecidableEq

/-- Whether `n` lies in the field's bounds. -/
def inFieldRange (r : FieldRange) (n : Nat) : Bool :=
  r.lo ≤ n && n ≤ r.hi

/-- Validity of the base part of one cron field component: `*`, a
number, or a range `a-b` (croniter allows wrapping ranges, so `a ≤ b`
is not required). -/
def validBase (r : FieldRange) (b : String) : Bool :=
  if b == "*" then true
  else
    match pySplitOn (Char.ofNat 45) b with
    | [x] =>
      (match charsToNat? x with
       | some n => inFieldRange r n
       | none => false)
    | [x, y] =>
      (match charsToNat? x, charsToNat? y with
       | some n, some m => inFieldRange r n && inFieldRange r m
       | _, _ => false)
    | _ => false

/-- Validity of one comma-separated component of a cron field: a base
with an optional positive `/step`. -/
def validComponent (r : FieldRange) (comp : String) : Bool :=
  match pySplitOn (Char.ofNat 47) comp with
  | [b] => validBase r b
  | [b, st] =>
    validBase r b &&
      (match charsToNat? st with
       | some k => 0 < k
       | none => false)
  | _ => false

/-- Validity of one whole cron field (a non-empty comma list of
components). -/
def validField (r : FieldRange) (f : String) : Bool :=
  (pySplitOn (Char.ofNat 44) f).all (validComponent r)

/-- The croniter alias table (`@yearly` etc. expand to five-field
expressions before field validation). -/
def aliasLookup (s : String) : String :=
  if s == "@yearly" || s == "@annually" then "0 0 1 1 *"
  else if s == "@monthly" then "0 0 1 * *"
  else if s == "@weekly" then "0 0 * * 0"
  else if s == "@daily" || s == "@midnight" then "0 0 * * *"
  else if s == "@hourly" then "0 * * * *"
  else s

/-- Field bounds used by croniter: minute 0-59, hour 0-23,
day-of-month 1-31, month 1-12, day-of-week 0-7; the OPTIONAL sixth
field is seconds 0-59 and the optional seventh is a year.  Model of
`croniter(expr)` construction succeeding (its `expand` raises
`CroniterBadCronError`, a `ValueError`, on a bad expression) on the
numeric/star/range/list/step fragment of its grammar; month and
weekday names and the hash/L extensions are outside every expression
this development touches. -/
def croniterAcceptable (s : String) : Bool :=
  let fields := splitWs (aliasLookup s)
  let ranges : Option (List FieldRange) :=
    if fields.length = 5 then
      some [⟨0, 59⟩, ⟨0, 23⟩, ⟨1, 31⟩, ⟨1, 12⟩, ⟨0, 7⟩]
    else if fields.length = 6 then
      some [⟨0, 59⟩, ⟨0, 23⟩, ⟨1, 31⟩, ⟨1, 12⟩, ⟨0, 7⟩, ⟨0, 59⟩]
    else if fields.length = 7 then
      some [⟨0, 59⟩, ⟨0, 23⟩, ⟨1, 31⟩, ⟨1, 12⟩, ⟨0, 7⟩, ⟨0, 59⟩, ⟨1970, 2099⟩]
    else none
  match ranges with
  | none => false
  | some rs => (fields.zip rs).all (fun p => validField p.2 p.1)

/-- Model of APScheduler's `CronTrigger.from_crontab` succeeding
(src/services/cron_service.py lines 128 and 148): it accepts EXACTLY
five whitespace-separated fields (numeric fragment; weekday 0-6). -/
def from_crontab_ok (s : String) : Bool :=
  let fields := splitWs s
  fields.length = 5 &&
    (fields.zip [⟨0, 59⟩, ⟨0, 23⟩, ⟨1, 31⟩, ⟨1, 12⟩, (⟨0, 6⟩ : FieldRange)]).all
      (fun p => validField p.2 p.1)

/-- Modelled from the spec (section 4.5, for comparison with the
code's validation): a valid STANDARD five-field cron expression -
`minute hour day-of-month month day-of-week`, each field `*`, numeric,
ranges, lists and steps, with the POSIX bounds (weekday 0-7). -/
def standardFiveField (s : String) : Bool :=
  let fields := splitWs s
  fields.length = 5 &&
    (fields.zip [⟨0, 59⟩, ⟨0, 23⟩, ⟨1, 31⟩, ⟨1, 12⟩, (⟨0, 7⟩ : FieldRange)]).all
      (fun p => validField p.2 p.1)

/-- Model of `validate_cron_expression` (src/routes/cronjobs.py lines
19-27): empty after strip is rejected with its own message; otherwise
the expression is accepted iff `croniter(expression.strip())`
constructs, and rejected with an `"Invalid cron expression: ..."`
message (the `str(e)` detail is immaterial here). -/
def validate_cron_expression (expression : String) : Bool × Option String :=
  if pyStrip expression = "" then (false, some ("Cron expression is required"))
  else if croniterAcceptable (pyStrip expression) then (true, none)
  else (false, some ("Invalid cron expression: bad field or field count"))

/-- HTTP-level result of a cronjobs route handler. -/
inductive PostResult where
  | created (id : Nat)
  | ok (msg : String)
  | badRequest (msg : String)
  | notFound
deriving DecidableEq

/-- The JSON body of POST/PUT /api/cronjobs: `data.get('enabled',
True)` makes `enabled` default true at the caller. -/
structure CronPostData where
  name : String
  schedule : String
  template_id : Nat
  key_id : Nat
  host_ids : List Nat
  group_ids : List Nat
  enabled : Bool
deriving DecidableEq

/-- Host-id resolution of src/routes/cronjobs.py lines 50-59 /
118-127: if `host_ids` is non-empty use it, else resolve the members
of the selected (existing) groups through the `host_group_membership`
association rows. -/
def resolveCronHostIds (s : St) (data : CronPostData) : List Nat :=
  if data.host_ids ≠ [] then data.host_ids
  else if data.group_ids ≠ [] then
    (s.hosts.filter (fun h =>
      s.memberships.any (fun m =>
        m.1 == h.id && data.group_ids.contains m.2 && s.groups.contains m.2))).map
      (fun h => h.id)
  else []

/-- `','.join(map(str, host_ids_list)) if host_ids_list else ''`. -/
def joinHostIds (ids : List Nat) : String :=
  String.intercalate (",") (ids.map (fun n => toString n))

/-- `[int(x) for x in cron.host_ids.split(',')] if cron.host_ids else
[]` (src/services/cron_service.py line 75).  The stored string is
always produced by `joinHostIds`, so each piece is numeric. -/
def parseHostIds (s : String) : List Nat :=
  if s = "" then []
  else (pySplitOn (Char.ofNat 44) s).map (fun t => (charsToNat? t).getD 0)

/-- Model of `schedule_cron_job` (src/services/cron_service.py lines
145-161): build `CronTrigger.from_crontab(cron_job.schedule)` and
`scheduler.add_job(..., id=str(cron_job.id), replace_existing=True)`;
replace semantics leave exactly one trigger under the id.  Any
exception (e.g. a schedule `from_crontab` rejects) is caught and only
logged, leaving the trigger set unchanged.  Note the function never
consults `cron_job.enabled`. -/
def schedule_cron_job (s : St) (cron : CronJobRow) : St :=
  if from_crontab_ok cron.schedule then
    { s with triggers := cron.id :: s.triggers.filter (fun i => i ≠ cron.id) }
  else s

/-- Model of the POST branch of `handle_cronjobs` (src/routes/cronjobs.py
lines 30-76): name-required and duplicate-name checks, cron expression
validation, host resolution, row insertion, then `schedule_cron_job`
on the new row (unconditionally - also when `enabled` is false). -/
def handle_cronjobs_post (s : St) (data : CronPostData) : St × PostResult :=
  let name := pyStrip data.name
  if name = "" then (s, .badRequest ("Cron job name is required"))
  else if s.crons.any (fun c => c.name == name) then
    (s, .badRequest ("A cron job with this name already exists"))
  else
    let schedule := pyStrip data.schedule
    if (validate_cron_expression schedule).1 then
      let row : CronJobRow :=
        { id := s.nextCronId, name := name, schedule := schedule,
          template_id := data.template_id, key_id := data.key_id,
          host_ids := joinHostIds (resolveCronHostIds s data),
          enabled := data.enabled, last_run := none }
      let s1 := { s with crons := s.crons ++ [row], nextCronId := s.nextCronId + 1 }
      (schedule_cron_job s1 row, .created row.id)
    else (s, .badRequest ((validate_cron_expression schedule).2.getD ("")))

/-- Model of the PUT branch of `handle_cron_job_item`
(src/routes/cronjobs.py lines 95-141): 404 when the row is missing;
name and schedule checks as on create; the row is updated in place and
`schedule_cron_job` re-installs its trigger (again regardless of
`enabled`). -/
def handle_cron_job_put (s : St) (cron_job_id : Nat) (data : CronPostData) : St × PostResult :=
  match s.crons.find? (fun c => c.id == cron_job_id) with
  | none => (s, .notFound)
  | some cron =>
    let newName := pyStrip data.name
    if newName = "" then (s, .badRequest ("Cron job name is required"))
    else if newName ≠ cron.name && s.crons.any (fun c => c.name == newName) then
      (s, .badRequest ("A cron job with this name already exists"))
    else
      let schedule := pyStrip data.schedule
      if (validate_cron_expression schedule).1 then
        let row : CronJobRow :=
          { cron with name := newName, schedule := schedule,
                      template_id := data.template_id, key_id := data.key_id,
                      host_ids := joinHostIds (resolveCronHostIds s data),
                      enabled := data.enabled }
        let s1 := { s with crons := s.crons.map (fun c => if c.id == cron_job_id then row else c) }
        (schedule_cron_job s1 row, .ok ("Cron job updated"))
      else (s, .badRequest ((validate_cron_expression schedule).2.getD ("")))

/-- Model of the DELETE branch of `handle_cron_job_item`
(src/routes/cronjobs.py lines 142-145): delete the row (the
`cascade='all, delete-orphan'` relationship deletes its CronJobLog
rows).  NOTHING is removed from the APScheduler trigger set - the
route never calls `scheduler.remove_job`. -/
def handle_cron_job_delete (s : St) (cron_job_id : Nat) : St × PostResult :=
  match s.crons.find? (fun c => c.id == cron_job_id) with
  | none => (s, .notFound)
  | some _ =>
    ({ s with crons := s.crons.filter (fun c => c.id ≠ cron_job_id),
              cronLogs := s.cronLogs.filter (fun l => l.cron_job_id ≠ cron_job_id) },
     .ok ("Cron job deleted"))

/-- Sort order used by `CronJobLog.query.order_by(created_at.desc())`:
newest first. -/
def newestFirst (a b : CronLogRow) : Prop :=
  b.created_at ≤ a.created_at

instance : DecidableRel newestFirst := fun a b =>
  Nat.decLe b.created_at a.created_at

instance : IsTotal CronLogRow newestFirst :=
  ⟨fun a b => Nat.le_total b.created_at a.created_at⟩

instance : IsTrans CronLogRow newestFirst :=
  ⟨fun _ _ _ h h2 => Nat.le_trans h2 h⟩

/-- `keep_ids` of src/services/cron_service.py line 39: the ids of the
`limit` most recent CronJobLog rows by `created_at` (descending). -/
def keptIds (logs : List CronLogRow) (limit : Nat) : List Nat :=
  ((List.insertionSort newestFirst logs).take limit).map (fun l => l.id)

/-- The rows surviving the bulk delete of line 42: those whose id is
in the keep list. -/
def retainedLogs (logs : List CronLogRow) (limit : Nat) : List CronLogRow :=
  logs.filter (fun l => (keptIds logs limit).contains l.id)

/-- Model of `cleanup_old_cron_history` (src/services/cron_service.py
lines 26-48): no-op when the settings row is missing, the limit is 0,
or the CronJobLog count is at or below the limit; otherwise keep the
ids of the `limit` most recent rows by `created_at` and bulk-delete
every row whose id is not kept.  Returns the deleted-row count.  Only
the `cron_job_log` table is read or written. -/
def cleanup_old_cron_history (s : St) : St × Nat :=
  match s.settings with
  | none => (s, 0)
  | some settings =>
    if settings.cron_history_limit = 0 then (s, 0)
    else
      let limit := settings.cron_history_limit
      let total := s.cronLogs.length
      if total ≤ limit then (s, 0)
      else
        let remaining := retainedLogs s.cronLogs limit
        ({ s with cronLogs := remaining }, total - remaining.length)

/-- `job.status` update used by `run_job_thread`. -/
def setJobStatus (jobs : List JobRow) (job_id : Nat) (status : String) : List JobRow :=
  jobs.map (fun j => if j.id == job_id then { j with status := status } else j)

/-- The parallel fan-out of src/services/ssh_service.py lines 166-177
(one `execute_ssh_command` thread per resolved host, each committing
its own log row): the finalised rows, with owner foreign key `job_id`
and ids from the autoincrement counter `startId`.  `conn` gives the
transport behaviour per host id. -/
def fanOutNewLogs (keyParses : Bool) (conn : Nat → ConnectOutcome)
    (hosts : List HostRow) (script_type : String) (job_id startId : Nat) : List JobLogRow :=
  hosts.enum.map (fun p =>
    let r := execute_ssh_command keyParses (conn p.2.id) p.2 script_type
    { id := startId + p.1, job_id := job_id, hostname := r.hostname,
      stdout := r.stdout, stderr := r.stderr, status := r.status })

/-- The roll-up loop of src/services/ssh_service.py lines 180-185:
`failed` when any of the job's logs ended in `error` or
`connection_failed`, else `completed`. -/
def rollup (logsForJob : List JobLogRow) : String :=
  if logsForJob.any (fun l => l.status == "error" || l.status == "connection_failed")
  then "failed" else "completed"

/-- Model of `run_job_thread` (src/services/ssh_service.py lines
138-190).  When the job row itself is missing the thread dies on an
`AttributeError` with nothing committed (modelled as the unchanged
store).  When template, key or hosts fail to resolve AFTER the job row
exists, the job is set to `error` and the single synthetic hostname
`"N/A"` log row is committed.  Otherwise one log per resolved host is
produced by the fan-out and the job status is rolled up from the job's
logs. -/
def run_job_thread (keyParses : Bool) (conn : Nat → ConnectOutcome) (s : St)
    (job_id template_id key_id : Nat) (host_ids : List Nat) (script_type : String) : St :=
  match s.jobs.find? (fun j => j.id == job_id) with
  | none => s
  | some job =>
    let templateFound := (s.templates.find? (fun t => t.id == template_id)).isSome
    let keyFound := s.sshKeys.contains key_id
    let hosts := s.hosts.filter (fun h => host_ids.contains h.id)
    if !templateFound || !keyFound || hosts.isEmpty then
      let log : JobLogRow :=
        { id := s.nextJobLogId, job_id := job.id, hostname := "N/A", stdout := "",
          stderr := "Job setup failed: Template, key, or hosts not found.",
          status := "error" }
      { s with jobs := setJobStatus s.jobs job_id ("error"),
               jobLogs := s.jobLogs ++ [log],
               nextJobLogId := s.nextJobLogId + 1 }
    else
      let newLogs := fanOutNewLogs keyParses conn hosts script_type job.id s.nextJobLogId
      let allLogs := s.jobLogs ++ newLogs
      let final := rollup (allLogs.filter (fun l => l.job_id == job.id))
      { s with jobs := setJobStatus s.jobs job_id final,
               jobLogs := allLogs,
               nextJobLogId := s.nextJobLogId + newLogs.length }

/-- Model of `execute_cron_job` (src/services/cron_service.py lines
51-117), the scheduler's fire operation.  Skip when the row is missing
or disabled.  Try-acquire the per-job lock: when already held, warn
and return with nothing changed (the firing is dropped, not queued).
After acquiring: resolve the frozen host id list; WHEN NO HOSTS
RESOLVE THE FUNCTION RETURNS WITH THE LOCK STILL HELD (the early
return at source lines 80-82 precedes the try/finally that releases
it); the same happens if the template row is missing (`AttributeError`
at `template.script_type`).  On the full path: one CronJobLog per
host from the fan-out, `last_run` update, retention sweep, and release
of the lock in the `finally` block. -/
def execute_cron_job (keyParses : Bool) (conn : Nat → ConnectOutcome)
    (s : St) (cron_job_id : Nat) : St :=
  match s.crons.find? (fun c => c.id == cron_job_id) with
  | none => s
  | some cron =>
    if !cron.enabled then s
    else if s.locks.contains cron_job_id then s
    else
      let locks1 := cron_job_id :: s.locks
      let hostIds := parseHostIds cron.host_ids
      let hosts := s.hosts.filter (fun h => hostIds.contains h.id)
      if hosts.isEmpty then { s with locks := locks1 }
      else
        match s.templates.find? (fun t => t.id == cron.template_id) with
        | none => { s with locks := locks1 }
        | some template =>
          let script_type := if template.script_type = "" then "bash" else template.script_type
          let newLogs := hosts.enum.map (fun p =>
            let r := execute_ssh_command keyParses (conn p.2.id) p.2 script_type
            ({ id := s.nextCronLogId + p.1, cron_job_id := cron.id,
               hostname := r.hostname, stdout := r.stdout, stderr := r.stderr,
               status := r.status, created_at := s.now } : CronLogRow))
          let s1 :=
            { s with cronLogs := s.cronLogs ++ newLogs,
                     nextCronLogId := s.nextCronLogId + hosts.length,
                     crons := s.crons.map (fun c =>
                       if c.id == cron_job_id then { c with last_run := some s.now } else c),
                     locks := locks1 }
          let s2 := (cleanup_old_cron_history s1).1
          { s2 with locks := s2.locks.erase cron_job_id }

/-- HTTP-level result of POST /api/run: a 400 with a message, an
UNHANDLED exception (the Flask 500 path - nothing was committed), or a
started job (the fan-out continues on a background thread, modelled by
`run_job_thread`). -/
inductive RunResult where
  | badRequest (msg : String)
  | unhandled
  | started (job_id : Nat)
deriving DecidableEq

/-- The JSON body of POST /api/run.  `template_id`/`key_id` may be
absent (`none`); Python's falsy test also treats an explicit 0 as
missing. -/
structure RunPostData where
  template_id : Option Nat
  host_ids : List Nat
  host_group_ids : List Nat
  key_id : Option Nat
deriving DecidableEq

/-- The group-member resolution of src/routes/jobs.py lines 43-47: the
hosts of every EXISTING selected group, unioned into the id set. -/
def resolveRunGroupHostIds (s : St) (group_ids : List Nat) : List Nat :=
  (s.hosts.filter (fun h =>
    s.memberships.any (fun m =>
      m.1 == h.id && group_ids.contains m.2 && s.groups.contains m.2))).map
    (fun h => h.id)

/-- Model of `run_template` (src/routes/jobs.py lines 16-68), the POST
/api/run handler, up to the point where the background thread is
spawned.  Order of operations follows the source exactly: falsy check
on `template_id`/`key_id`; template lookup (result unused until row
creation); host resolution and the empty-set 400; THEN
`Job(template_name=template.name)` - when the template lookup found
nothing this raises `AttributeError` on `None` BEFORE any row is
inserted, so the request dies unhandled with the store untouched.
Otherwise the job row is committed with default status `running` and
the thread is started. -/
def run_template (s : St) (data : RunPostData) : St × RunResult :=
  let tidOk := match data.template_id with
    | some n => n != 0
    | none => false
  let kidOk := match data.key_id with
    | some n => n != 0
    | none => false
  if !tidOk || !kidOk then (s, .badRequest ("Missing template or key"))
  else
    let template? := s.templates.find? (fun t => t.id == data.template_id.getD 0)
    let resolved := (data.host_ids ++ resolveRunGroupHostIds s data.host_group_ids).dedup
    if resolved.isEmpty then
      (s, .badRequest ("No hosts or host groups selected for execution."))
    else
      match template? with
      | none => (s, .unhandled)
      | some template =>
        let job : JobRow :=
          { id := s.nextJobId, template_name := template.name, status := "running" }
        ({ s with jobs := s.jobs ++ [job], nextJobId := s.nextJobId + 1 },
         .started job.id)

/-- An empty store with all autoincrement counters at 1, the state of
a freshly created database. -/
def stEmpty : St :=
  { templates := [], hosts := [], groups := [], memberships := [], sshKeys := [],
    jobs := [], jobLogs := [], crons := [], cronLogs := [], settings := none,
    triggers := [], locks := [], nextCronId := 1, nextJobId := 1,
    nextJobLogId := 1, nextCronLogId := 1, now := 0 }

/-- A concrete host row used by several witnesses. -/
def hostA : HostRow :=
  { id := 1, name := "web1", hostname := "web1.example", username := "root", port := 22 }

/-- A transport behaviour where every connection succeeds and the
remote command exits 0 with empty streams. -/
def connOk : Nat → ConnectOutcome :=
  fun _ => .connected 0 [] []

/-- Claim C2, counterexample: with an invalid configured key (so
`Fernet(...)` raises), writing the credential `"SECRET"` through the
`private_key` setter stores the PLAINTEXT at rest - the write neither
fails nor stores ciphertext, refuting the claim as stated. -/
theorem C2_counterexample :
    (SSHKeyRow.set_private_key false ⟨1, ("deploy"), ("")⟩ ("SECRET"))._private_key
      = "SECRET" := by
  decide

/-- Claim C2 (amended): when encryption succeeds the stored column is
the ciphertext, which differs from the plaintext; but when encryption
fails the calling write does NOT fail - `encrypt_value` returns the
value as-is and the plaintext is stored unchanged. -/
theorem C2_encrypt_failure_stores_plaintext (keyOk : Bool) (k : SSHKeyRow)
    (v : String) (hv : v ≠ "") :
    (keyOk = true →
      (k.set_private_key keyOk v)._private_key = fernetEncrypt v ∧
      (k.set_private_key keyOk v)._private_key ≠ v) ∧
    (keyOk = false → (k.set_private_key keyOk v)._private_key = v) := by
  constructor
  · intro hk
    subst hk
    have hstore : (k.set_private_key true v)._private_key = fernetEncrypt v := by
      simp [SSHKeyRow.set_private_key, encrypt_value, hv]
    refine ⟨hstore, ?_⟩
    rw [hstore]
    simp only [fernetEncrypt]
    intro h
    have hl := congrArg String.length h
    rw [String.length_append] at hl
    have h6 : ("gAAAAA" : String).length = 6 := by decide
    rw [h6] at hl
    omega
  · intro hk
    subst hk
    simp [SSHKeyRow.set_private_key, encrypt_value, hv]

/-- Witness for C2_encrypt_failure_stores_plaintext at the concrete
secret `"SECRET"`. -/
theorem C2_encrypt_failure_stores_plaintext_witness :
    ("SECRET" : String) ≠ "" ∧
    ((true = true →
      (SSHKeyRow.set_private_key true ⟨1, ("deploy"), ("")⟩ ("SECRET"))._private_key
        = fernetEncrypt ("SECRET") ∧
      (SSHKeyRow.set_private_key true ⟨1, ("deploy"), ("")⟩ ("SECRET"))._private_key
        ≠ "SECRET") ∧
     (true = false →
      (SSHKeyRow.set_private_key true ⟨1, ("deploy"), ("")⟩ ("SECRET"))._private_key
        = "SECRET")) :=
  ⟨by decide, C2_encrypt_failure_stores_plaintext true ⟨1, ("deploy"), ("")⟩ ("SECRET") (by decide)⟩

/-- Claim C5, counterexample: a remote execution that exits 0 but
emits the invalid UTF-8 byte 0xFF on stdout is NOT classified by its
exit status: the strict `decode('utf-8')` raises and the generic
except clause records `connection_failed`, refuting the claim as
stated. -/
theorem C5_counterexample :
    (execute_ssh_command true (.connected 0 [255] []) hostA ("python")).status
        = "connection_failed" ∧
    (execute_ssh_command true (.connected 0 [255] []) hostA ("python")).status
        ≠ "success" := by
  decide

/-- Claim C5 (amended): the executor decodes output STRICTLY as UTF-8.
When both streams are valid UTF-8 the run is classified by exit status
(success for exit 0, error otherwise); when stdout is invalid UTF-8
the decode raises `UnicodeDecodeError` and the run is recorded as
`connection_failed`. -/
theorem C5_strict_decode_classification (host : HostRow) (script_type i : String)
    (ex : Nat) (out err : List Nat)
    (hi : interpreterFor host script_type = some i) :
    (∀ o e, utf8Decode out = some o → utf8Decode err = some e →
      (execute_ssh_command true (.connected ex out err) host script_type).status =
        (if ex == 0 then "success" else "error")) ∧
    (utf8Decode out = none →
      (execute_ssh_command true (.connected ex out err) host script_type).status =
        "connection_failed") := by
  constructor
  · intro o e ho he
    simp [execute_ssh_command, hi, ho, he]
  · intro ho
    simp [execute_ssh_command, hi, ho]

/-- Witness for C5_strict_decode_classification: a python-mode run on
`hostA` whose remote produced the single valid byte 104. -/
theorem C5_strict_decode_classification_witness :
    interpreterFor hostA ("python") = some ("python3 -") ∧
    ((∀ o e, utf8Decode [104] = some o → utf8Decode [] = some e →
      (execute_ssh_command true (.connected 0 [104] []) hostA ("python")).status =
        (if 0 == 0 then "success" else "error")) ∧
     (utf8Decode [104] = none →
      (execute_ssh_command true (.connected 0 [104] []) hostA ("python")).status =
        "connection_failed")) :=
  ⟨by decide,
   C5_strict_decode_classification hostA ("python") ("python3 -") 0 [104] [] (by decide)⟩

/-- Claim C6: the `Host` model persists NO shell column at all (so no
host ever has a defaulted `/bin/bash` value), and a shell-mode
execution against such a host fails with `connection_failed` from the
`AttributeError` at `host_obj.shell` even though the transport and the
remote command succeed - the code contradicts both the documented
default and its own other code paths that read `host.shell`. -/
theorem C6_missing_shell_column :
    hostShell hostA = none ∧
    (execute_ssh_command true (.connected 0 [] []) hostA ("bash")).status
        = "connection_failed" ∧
    (execute_ssh_command true (.connected 0 [] []) hostA ("bash")).stderr
        = "Error: Host object has no attribute shell" := by
  exact ⟨rfl, by decide, by decide⟩

/-- A store holding one enabled cron job whose frozen host id list is
empty, so no hosts resolve at fire time. -/
def sNoHosts : St :=
  { stEmpty with
      crons := [{ id := 1, name := "nightly", schedule := "* * * * *",
                  template_id := 1, key_id := 1, host_ids := "",
                  enabled := true, last_run := none }] }

/-- Claim C3: firing an enabled job whose frozen host set resolves to
no existing hosts returns from `execute_cron_job` WITH THE PER-JOB
LOCK STILL HELD (the early return at src/services/cron_service.py
lines 80-82 precedes the try/finally release), leaving no logs and no
`last_run` update - and every later firing of that job is then dropped
by the overlap guard even though no run is in progress. -/
theorem C3_lock_leak_on_empty_host_set :
    (execute_cron_job true connOk sNoHosts 1).locks = [1] ∧
    (execute_cron_job true connOk sNoHosts 1).cronLogs = [] ∧
    (execute_cron_job true connOk sNoHosts 1).crons = sNoHosts.crons ∧
    execute_cron_job true connOk (execute_cron_job true connOk sNoHosts 1) 1 =
      execute_cron_job true connOk sNoHosts 1 := by
  decide

/-- Claim C4: when the per-job lock is already held, the try-acquire
fails and the firing returns immediately with the store COMPLETELY
unchanged - no new log rows, no `last_run` update, and nothing queued
for later. -/
theorem C4_overlap_guard_drops_firing (keyParses : Bool) (conn : Nat → ConnectOutcome)
    (s : St) (cron_job_id : Nat) (cron : CronJobRow)
    (hfind : s.crons.find? (fun c => c.id == cron_job_id) = some cron)
    (hen : cron.enabled = true)
    (hlock : s.locks.contains cron_job_id = true) :
    execute_cron_job keyParses conn s cron_job_id = s := by
  have hmem : cron_job_id ∈ s.locks := by simpa using hlock
  simp [execute_cron_job, hfind, hen, hmem]

/-- The cron row and store used to witness the overlap guard: job 1 is
enabled and its lock is currently held by an in-progress run. -/
def cronBusy : CronJobRow :=
  { id := 1, name := "busy", schedule := "* * * * *", template_id := 1,
    key_id := 1, host_ids := "1", enabled := true, last_run := none }

/-- Store in which `cronBusy`'s lock is held. -/
def sBusy : St :=
  { stEmpty with crons := [cronBusy], locks := [1] }

/-- Witness for C4_overlap_guard_drops_firing on the concrete store
`sBusy`. -/
theorem C4_overlap_guard_drops_firing_witness :
    sBusy.crons.find? (fun c => c.id == 1) = some cronBusy ∧
    cronBusy.enabled = true ∧
    sBusy.locks.contains 1 = true ∧
    execute_cron_job true connOk sBusy 1 = sBusy :=
  ⟨by decide, by decide, by decide,
   C4_overlap_guard_drops_firing true connOk sBusy 1 cronBusy (by decide) (by decide)
     (by decide)⟩

/-- Claim C10: a POST /api/run whose `template_id` matches no template
but which supplies a key and a non-empty host selection dies on the
`AttributeError` at `Job(template_name=template.name)` BEFORE the job
row is created: the store is untouched (no job row, no synthetic
`"N/A"` log, no per-host logs), and the synthetic dispatch-failure log
of `run_job_thread` can only ever be written when the job row already
exists (with no job row, `run_job_thread` commits nothing). -/
theorem C10_missing_template_unhandled (s : St) (data : RunPostData) (tid kid : Nat)
    (htid : data.template_id = some tid) (htid0 : tid ≠ 0)
    (hkid : data.key_id = some kid) (hkid0 : kid ≠ 0)
    (hmiss : s.templates.find? (fun t => t.id == tid) = none)
    (hhosts : data.host_ids ≠ []) :
    (run_template s data).2 = RunResult.unhandled ∧
    (run_template s data).1 = s ∧
    (∀ (keyParses : Bool) (conn : Nat → ConnectOutcome) (s2 : St)
       (jid tid2 kid2 : Nat) (hids : List Nat) (st : String),
      s2.jobs.find? (fun j => j.id == jid) = none →
      run_job_thread keyParses conn s2 jid tid2 kid2 hids st = s2) := by
  have hne : (data.host_ids ++ resolveRunGroupHostIds s data.host_group_ids).dedup ≠ [] := by
    intro h
    rw [List.dedup_eq_nil] at h
    exact hhosts (List.append_eq_nil.mp h).1
  have hempty : (data.host_ids ++ resolveRunGroupHostIds s data.host_group_ids).dedup.isEmpty
      = false := by
    rw [List.isEmpty_eq_false]
    exact hne
  refine ⟨?_, ?_, ?_⟩
  · simp [run_template, htid, hkid, htid0, hkid0, hmiss, hempty]
  · simp [run_template, htid, hkid, htid0, hkid0, hmiss, hempty]
  · intro keyParses conn s2 jid tid2 kid2 hids st hnojob
    simp [run_job_thread, hnojob]

/-- Concrete data for the C10 witness: template 7 does not exist in
`stEmpty`, a key id and one host id are supplied. -/
def runDataMissingTemplate : RunPostData :=
  { template_id := some 7, host_ids := [1], host_group_ids := [], key_id := some 3 }

/-- Witness for C10_missing_template_unhandled on the empty store. -/
theorem C10_missing_template_unhandled_witness :
    stEmpty.templates.find? (fun t => t.id == 7) = none ∧
    ((run_template stEmpty runDataMissingTemplate).2 = RunResult.unhandled ∧
     (run_template stEmpty runDataMissingTemplate).1 = stEmpty ∧
     (∀ (keyParses : Bool) (conn : Nat → ConnectOutcome) (s2 : St)
        (jid tid2 kid2 : Nat) (hids : List Nat) (st : String),
       s2.jobs.find? (fun j => j.id == jid) = none →
       run_job_thread keyParses conn s2 jid tid2 kid2 hids st = s2)) :=
  ⟨by decide,
   C10_missing_template_unhandled stEmpty runDataMissingTemplate 7 3 (by decide) (by decide)
     (by decide) (by decide) (by decide) (by decide)⟩

/-- Counting helper: pushing an id in front of the trigger list with
all its other occurrences filtered out (the `replace_existing=True`
semantics) leaves exactly one occurrence. -/
theorem count_cons_filter_ne (a : Nat) (l : List Nat) :
    (a :: l.filter (fun i => i ≠ a)).count a = 1 := by
  rw [List.count_cons_self]
  have h0 : (l.filter (fun i => i ≠ a)).count a = 0 := by
    rw [List.count_eq_zero]
    intro hmem
    rw [List.mem_filter] at hmem
    simp at hmem
  omega

/-- The claim's invariant, stated over the store and the scheduler's
in-memory trigger set: an enabled row has exactly one trigger keyed by
its id, a disabled row has none, and no trigger lacks a row. -/
def trigger_invariant (s : St) : Prop :=
  (∀ c ∈ s.crons, c.enabled = true → s.triggers.count c.id = 1) ∧
  (∀ c ∈ s.crons, c.enabled = false → s.triggers.count c.id = 0) ∧
  (∀ i ∈ s.triggers, ∃ c ∈ s.crons, c.id = i)

instance (s : St) : Decidable (trigger_invariant s) := by
  unfold trigger_invariant
  infer_instance

/-- A valid enabled cron job creation request. -/
def cronPostData1 : CronPostData :=
  { name := "job1", schedule := "* * * * *", template_id := 1, key_id := 1,
    host_ids := [1], group_ids := [], enabled := true }

/-- Claim C1, counterexample: create an enabled job (the invariant
then holds), then DELETE it - the row is gone but the route never
calls `scheduler.remove_job`, so its trigger remains in the in-memory
set and the invariant is violated: deletion does NOT remove the
trigger. -/
theorem C1_counterexample :
    (handle_cronjobs_post stEmpty cronPostData1).2 = PostResult.created 1 ∧
    trigger_invariant (handle_cronjobs_post stEmpty cronPostData1).1 ∧
    ¬ trigger_invariant
        (handle_cron_job_delete (handle_cronjobs_post stEmpty cronPostData1).1 1).1 := by
  decide

/-- Claim C1 (amended): creating OR updating a job whose schedule
`CronTrigger.from_crontab` accepts installs exactly one trigger keyed
by its id (replace semantics) - in both cases regardless of the
`enabled` flag, so a PUT that disables a job still leaves/installs its
trigger; deleting a job leaves the trigger set untouched; and a firing
of a deleted or disabled job is skipped at execution time with the
store unchanged, which is the only mechanism neutralising the stale
trigger. -/
theorem C1_trigger_amended :
    (∀ (s : St) (d : CronPostData) (n : Nat),
      from_crontab_ok (pyStrip d.schedule) = true →
      (handle_cronjobs_post s d).2 = PostResult.created n →
      ((handle_cronjobs_post s d).1).triggers.count n = 1) ∧
    (∀ (s : St) (cid : Nat) (d : CronPostData),
      from_crontab_ok (pyStrip d.schedule) = true →
      (handle_cron_job_put s cid d).2 = PostResult.ok ("Cron job updated") →
      ((handle_cron_job_put s cid d).1).triggers.count cid = 1) ∧
    (∀ (s : St) (cid : Nat), ((handle_cron_job_delete s cid).1).triggers = s.triggers) ∧
    (∀ (kp : Bool) (conn : Nat → ConnectOutcome) (s : St) (cid : Nat) (c : CronJobRow),
      s.crons.find? (fun x => x.id == cid) = some c → c.enabled = false →
      execute_cron_job kp conn s cid = s) ∧
    (∀ (kp : Bool) (conn : Nat → ConnectOutcome) (s : St) (cid : Nat),
      s.crons.find? (fun x => x.id == cid) = none →
      execute_cron_job kp conn s cid = s) := by
  refine ⟨?_, ?_, ?_, ?_, ?_⟩
  · intro s d n hok hcre
    by_cases hc1 : pyStrip d.name = ""
    · simp [handle_cronjobs_post, hc1] at hcre
    · by_cases hc2 : s.crons.any (fun c => c.name == pyStrip d.name) = true
      · simp [handle_cronjobs_post, hc1, hc2] at hcre
      · by_cases hc3 : (validate_cron_expression (pyStrip d.schedule)).1 = true
        · simp [handle_cronjobs_post, hc1, hc2, hc3] at hcre ⊢
          subst hcre
          simpa [schedule_cron_job, hok] using
            count_cons_filter_ne s.nextCronId s.triggers
        · simp [handle_cronjobs_post, hc1, hc2, hc3] at hcre
  · intro s cid d hok hput
    cases hfind : s.crons.find? (fun c => c.id == cid) with
    | none => simp [handle_cron_job_put, hfind] at hput
    | some cron =>
      have hcid : cron.id = cid := by
        have hbe := List.find?_some hfind
        simpa using hbe
      by_cases hc1 : pyStrip d.name = ""
      · simp [handle_cron_job_put, hfind, hc1] at hput
      · by_cases hc2 : (¬ pyStrip d.name = cron.name ∧
            ∃ x ∈ s.crons, x.name = pyStrip d.name)
        · simp [handle_cron_job_put, hfind, hc1, hc2] at hput
        · by_cases hc3 : (validate_cron_expression (pyStrip d.schedule)).1 = true
          · simp [handle_cron_job_put, hfind, hc1, hc2, hc3]
            simpa [schedule_cron_job, hok, hcid] using
              count_cons_filter_ne cid s.triggers
          · simp [handle_cron_job_put, hfind, hc1, hc2, hc3] at hput
  · intro s cid
    unfold handle_cron_job_delete
    split <;> rfl
  · intro kp conn s cid c hfind hdis
    simp [execute_cron_job, hfind, hdis]
  · intro kp conn s cid hfind
    simp [execute_cron_job, hfind]

/-- A disabled cron job and a store holding only it. -/
def cronOff : CronJobRow :=
  { id := 2, name := "off", schedule := "* * * * *", template_id := 1,
    key_id := 1, host_ids := "1", enabled := false, last_run := none }

/-- Store holding only the disabled `cronOff`. -/
def sOff : St :=
  { stEmpty with crons := [cronOff] }

/-- The update request of the C1 witness: a PUT on the disabled job 2
that keeps `enabled := false`. -/
def cronPutDataOff : CronPostData :=
  { name := "off", schedule := "*/5 * * * *", template_id := 1, key_id := 1,
    host_ids := [1], group_ids := [], enabled := false }

/-- Witness for C1_trigger_amended: each conjunct applied at concrete
stores; the update part runs a PUT with `enabled = false` on the
disabled job 2 and still finds exactly one trigger keyed by 2
afterwards. -/
theorem C1_trigger_amended_witness :
    (from_crontab_ok (pyStrip cronPostData1.schedule) = true ∧
     (handle_cronjobs_post stEmpty cronPostData1).2 = PostResult.created 1 ∧
     ((handle_cronjobs_post stEmpty cronPostData1).1).triggers.count 1 = 1) ∧
    (cronPutDataOff.enabled = false ∧
     from_crontab_ok (pyStrip cronPutDataOff.schedule) = true ∧
     (handle_cron_job_put sOff 2 cronPutDataOff).2 = PostResult.ok ("Cron job updated") ∧
     ((handle_cron_job_put sOff 2 cronPutDataOff).1).triggers.count 2 = 1) ∧
    ((handle_cron_job_delete sOff 5).1).triggers = sOff.triggers ∧
    (sOff.crons.find? (fun x => x.id == 2) = some cronOff ∧ cronOff.enabled = false ∧
     execute_cron_job true connOk sOff 2 = sOff) ∧
    (stEmpty.crons.find? (fun x => x.id == 9) = none ∧
     execute_cron_job true connOk stEmpty 9 = stEmpty) :=
  ⟨⟨by decide, by decide,
    C1_trigger_amended.1 stEmpty cronPostData1 1 (by decide) (by decide)⟩,
   ⟨by decide, by decide, by decide,
    C1_trigger_amended.2.1 sOff 2 cronPutDataOff (by decide) (by decide)⟩,
   C1_trigger_amended.2.2.1 sOff 5,
   ⟨by decide, by decide,
    C1_trigger_amended.2.2.2.1 true connOk sOff 2 cronOff (by decide) (by decide)⟩,
   ⟨by decide, C1_trigger_amended.2.2.2.2 true connOk stEmpty 9 (by decide)⟩⟩

/-- A creation request carrying a six-field (seconds) cron expression,
which croniter accepts but the five-field standard grammar does not. -/
def cronPostData6 : CronPostData :=
  { name := "sixfield", schedule := "* * * * * *", template_id := 1, key_id := 1,
    host_ids := [1], group_ids := [], enabled := true }

/-- Claim C9, counterexample: the six-field expression
`"* * * * * *"` is accepted by the croniter-backed validation and the
scheduled job IS persisted, although the schedule is not a valid
standard five-field cron expression - refuting the universal part of
the claim. -/
theorem C9_counterexample :
    (handle_cronjobs_post stEmpty cronPostData6).2 = PostResult.created 1 ∧
    ((handle_cronjobs_post stEmpty cronPostData6).1).crons.map (fun c => c.schedule)
      = ["* * * * * *"] ∧
    standardFiveField ("* * * * * *") = false := by
  decide

/-- A creation request carrying the four-field expression the claim
names. -/
def cronPostDataBad : CronPostData :=
  { name := "badfield", schedule := "* * * *", template_id := 1, key_id := 1,
    host_ids := [1], group_ids := [], enabled := true }

/-- Claim C9 (amended): `"*/1 * * * *"` is accepted; `"* * * *"` and
`"60 * * * *"` are rejected with an error message; a save whose
expression fails validation persists nothing and returns an error; and
every persisted job passed the croniter-backed validation - but that
validation is BROADER than the standard five-field grammar (croniter
also accepts six-field second-resolution expressions, which are then
persisted). -/
theorem C9_validation :
    validate_cron_expression ("*/1 * * * *") = (true, none) ∧
    ((validate_cron_expression ("* * * *")).1 = false ∧
      ((validate_cron_expression ("* * * *")).2).isSome = true) ∧
    ((validate_cron_expression ("60 * * * *")).1 = false ∧
      ((validate_cron_expression ("60 * * * *")).2).isSome = true) ∧
    (∀ (s : St) (d : CronPostData),
      (validate_cron_expression (pyStrip d.schedule)).1 = false →
      ((handle_cronjobs_post s d).1).crons = s.crons ∧
      ∃ m, (handle_cronjobs_post s d).2 = PostResult.badRequest m) ∧
    (∀ (s : St) (d : CronPostData) (n : Nat),
      (handle_cronjobs_post s d).2 = PostResult.created n →
      (validate_cron_expression (pyStrip d.schedule)).1 = true) ∧
    croniterAcceptable ("* * * * * *") = true := by
  refine ⟨by decide, ⟨by decide, by decide⟩, ⟨by decide, by decide⟩, ?_, ?_, by decide⟩
  · intro s d hval
    by_cases hc1 : pyStrip d.name = ""
    · exact ⟨by simp [handle_cronjobs_post, hc1],
        ⟨"Cron job name is required", by simp [handle_cronjobs_post, hc1]⟩⟩
    · by_cases hc2 : s.crons.any (fun c => c.name == pyStrip d.name) = true
      · exact ⟨by simp [handle_cronjobs_post, hc1, hc2],
          ⟨"A cron job with this name already exists",
           by simp [handle_cronjobs_post, hc1, hc2]⟩⟩
      · refine ⟨by simp [handle_cronjobs_post, hc1, hc2, hval], ?_⟩
        exact ⟨(validate_cron_expression (pyStrip d.schedule)).2.getD "",
          by simp [handle_cronjobs_post, hc1, hc2, hval]⟩
  · intro s d n hcre
    by_cases hc1 : pyStrip d.name = ""
    · simp [handle_cronjobs_post, hc1] at hcre
    · by_cases hc2 : s.crons.any (fun c => c.name == pyStrip d.name) = true
      · simp [handle_cronjobs_post, hc1, hc2] at hcre
      · by_cases hc3 : (validate_cron_expression (pyStrip d.schedule)).1 = true
        · exact hc3
        · simp [handle_cronjobs_post, hc1, hc2, hc3] at hcre

/-- Witness for C9_validation: the four-field rejection leaves the
store unchanged, and the persisted `cronPostData1` job indeed passed
validation. -/
theorem C9_validation_witness :
    ((validate_cron_expression (pyStrip cronPostDataBad.schedule)).1 = false ∧
     ((handle_cronjobs_post stEmpty cronPostDataBad).1).crons = stEmpty.crons ∧
     ∃ m, (handle_cronjobs_post stEmpty cronPostDataBad).2 = PostResult.badRequest m) ∧
    ((handle_cronjobs_post stEmpty cronPostData1).2 = PostResult.created 1 ∧
     (validate_cron_expression (pyStrip cronPostData1.schedule)).1 = true) :=
  ⟨⟨by decide, (C9_validation.2.2.2.1 stEmpty cronPostDataBad (by decide)).1,
    (C9_validation.2.2.2.1 stEmpty cronPostDataBad (by decide)).2⟩,
   ⟨by decide, C9_validation.2.2.2.2.1 stEmpty cronPostData1 1 (by decide)⟩⟩

/-- Every finalised log of one SSH execution carries one of the three
terminal statuses. -/
theorem execute_status_cases (kp : Bool) (conn : ConnectOutcome) (h : HostRow)
    (st : String) :
    (execute_ssh_command kp conn h st).status = "success" ∨
    (execute_ssh_command kp conn h st).status = "error" ∨
    (execute_ssh_command kp conn h st).status = "connection_failed" := by
  unfold execute_ssh_command
  cases kp
  · exact Or.inr (Or.inr rfl)
  · cases conn with
    | authFail m => exact Or.inr (Or.inr rfl)
    | sshError m => exact Or.inr (Or.inr rfl)
    | timeoutError m => exact Or.inr (Or.inr rfl)
    | otherError m => exact Or.inr (Or.inr rfl)
    | connected ex out err =>
      rcases hi : interpreterFor h st with _ | i
      · simp only [hi]
        exact Or.inr (Or.inr rfl)
      · simp only [hi]
        rcases ho : utf8Decode out with _ | o
        · simp only [ho]
          exact Or.inr (Or.inr rfl)
        · simp only [ho]
          rcases he : utf8Decode err with _ | e
          · simp only [he]
            exact Or.inr (Or.inr rfl)
          · simp only [he]
            by_cases hex : (ex == 0) = true
            · simp only [hex, if_true]
              exact Or.inl rfl
            · rw [Bool.not_eq_true] at hex
              simp only [hex, Bool.false_eq_true, if_false]
              exact Or.inr (Or.inl rfl)

/-- The fan-out produces exactly one log row per resolved host. -/
theorem fanOut_length (kp : Bool) (conn : Nat → ConnectOutcome) (hosts : List HostRow)
    (st : String) (jid sid : Nat) :
    (fanOutNewLogs kp conn hosts st jid sid).length = hosts.length := by
  simp [fanOutNewLogs]

/-- Every fan-out log row is owned by the job it was produced for. -/
theorem fanOut_job_id (kp : Bool) (conn : Nat → ConnectOutcome) (hosts : List HostRow)
    (st : String) (jid sid : Nat) :
    ∀ l ∈ fanOutNewLogs kp conn hosts st jid sid, l.job_id = jid := by
  intro l hl
  unfold fanOutNewLogs at hl
  rw [List.mem_map] at hl
  obtain ⟨p, hp, rfl⟩ := hl
  rfl

/-- Every fan-out log row carries a terminal status. -/
theorem fanOut_status_cases (kp : Bool) (conn : Nat → ConnectOutcome)
    (hosts : List HostRow) (st : String) (jid sid : Nat) :
    ∀ l ∈ fanOutNewLogs kp conn hosts st jid sid,
      l.status = "success" ∨ l.status = "error" ∨ l.status = "connection_failed" := by
  intro l hl
  unfold fanOutNewLogs at hl
  rw [List.mem_map] at hl
  obtain ⟨p, hp, rfl⟩ := hl
  exact execute_status_cases kp (conn p.2.id) p.2 st

/-- The `any`-check of the roll-up loop holds exactly when some log
ended in `error` or `connection_failed`. -/
theorem rollup_any_iff (logs : List JobLogRow) :
    logs.any (fun l => l.status == "error" || l.status == "connection_failed") = true ↔
      ∃ l ∈ logs, l.status = "error" ∨ l.status = "connection_failed" := by
  rw [List.any_eq_true]
  constructor
  · rintro ⟨l, hl, hb⟩
    simp only [Bool.or_eq_true, beq_iff_eq] at hb
    exact ⟨l, hl, hb⟩
  · rintro ⟨l, hl, hb⟩
    refine ⟨l, hl, ?_⟩
    simp only [Bool.or_eq_true, beq_iff_eq]
    exact hb

/-- Characterisation of the roll-up: `completed` exactly when every
terminal log is `success`, `failed` exactly when some log failed. -/
theorem rollup_iff (logs : List JobLogRow)
    (htri : ∀ l ∈ logs,
      l.status = "success" ∨ l.status = "error" ∨ l.status = "connection_failed") :
    (rollup logs = "completed" ↔ ∀ l ∈ logs, l.status = "success") ∧
    (rollup logs = "failed" ↔ ∃ l ∈ logs, l.status = "error" ∨ l.status = "connection_failed") := by
  unfold rollup
  by_cases hany :
      logs.any (fun l => l.status == "error" || l.status == "connection_failed") = true
  · rw [if_pos hany]
    constructor
    · apply iff_of_false (by decide)
      intro hall
      obtain ⟨l, hl, hb⟩ := (rollup_any_iff logs).mp hany
      have hs := hall l hl
      rcases hb with hb | hb <;> (rw [hs] at hb; exact absurd hb (by decide))
    · exact iff_of_true rfl ((rollup_any_iff logs).mp hany)
  · rw [if_neg hany]
    constructor
    · apply iff_of_true rfl
      intro l hl
      rcases htri l hl with h | h | h
      · exact h
      · exact absurd ((rollup_any_iff logs).mpr ⟨l, hl, Or.inl h⟩) hany
      · exact absurd ((rollup_any_iff logs).mpr ⟨l, hl, Or.inr h⟩) hany
    · apply iff_of_false (by decide)
      intro hex
      exact hany ((rollup_any_iff logs).mpr hex)

/-- Updating one job's status leaves it findable with the new status. -/
theorem find?_setJobStatus (jobs : List JobRow) (jid : Nat) (stt : String) (j : JobRow)
    (hfind : jobs.find? (fun x => x.id == jid) = some j) :
    (setJobStatus jobs jid stt).find? (fun x => x.id == jid)
      = some { j with status := stt } := by
  induction jobs with
  | nil => simp at hfind
  | cons a rest ih =>
    unfold setJobStatus
    simp only [List.map_cons]
    by_cases ha : (a.id == jid) = true
    · rw [@List.find?_cons_of_pos _ (fun x => x.id == jid) a rest ha] at hfind
      injection hfind with hj
      subst hj
      rw [if_pos ha]
      simp only [List.find?_cons]
      simp [ha]
    · rw [@List.find?_cons_of_neg _ (fun x => x.id == jid) a rest ha] at hfind
      rw [if_neg ha]
      rw [Bool.not_eq_true] at ha
      simp only [List.find?_cons, ha]
      exact ih hfind

/-- The conclusion of claim C7 at given inputs: the fan-out appends
exactly one log per resolved host, the job's status is the roll-up of
those logs, and the roll-up is `completed` iff every log is `success`
and `failed` iff some log ended in `error` or `connection_failed`. -/
def C7Conclusion (kp : Bool) (conn : Nat → ConnectOutcome) (s : St)
    (job_id template_id key_id : Nat) (host_ids : List Nat) (script_type : String)
    (job : JobRow) : Prop :=
  (run_job_thread kp conn s job_id template_id key_id host_ids script_type).jobLogs
      = s.jobLogs ++ fanOutNewLogs kp conn (s.hosts.filter (fun h => host_ids.contains h.id))
          script_type job.id s.nextJobLogId ∧
  (fanOutNewLogs kp conn (s.hosts.filter (fun h => host_ids.contains h.id))
      script_type job.id s.nextJobLogId).length
      = (s.hosts.filter (fun h => host_ids.contains h.id)).length ∧
  (run_job_thread kp conn s job_id template_id key_id host_ids script_type).jobs.find?
      (fun x => x.id == job_id)
      = some { job with status := rollup (fanOutNewLogs kp conn
          (s.hosts.filter (fun h => host_ids.contains h.id)) script_type job.id
          s.nextJobLogId) } ∧
  (rollup (fanOutNewLogs kp conn (s.hosts.filter (fun h => host_ids.contains h.id))
      script_type job.id s.nextJobLogId) = "completed" ↔
    ∀ l ∈ fanOutNewLogs kp conn (s.hosts.filter (fun h => host_ids.contains h.id))
        script_type job.id s.nextJobLogId, l.status = "success") ∧
  (rollup (fanOutNewLogs kp conn (s.hosts.filter (fun h => host_ids.contains h.id))
      script_type job.id s.nextJobLogId) = "failed" ↔
    ∃ l ∈ fanOutNewLogs kp conn (s.hosts.filter (fun h => host_ids.contains h.id))
        script_type job.id s.nextJobLogId,
      l.status = "error" ∨ l.status = "connection_failed")

/-- Claim C7: for every fan-out run over the resolved host set,
exactly one HostLog per host is produced, and the job's final status
is `completed` iff every log is `success`, `failed` iff any log ended
in `error` or `connection_failed`. -/
theorem C7_fanout_rollup (kp : Bool) (conn : Nat → ConnectOutcome) (s : St)
    (job_id template_id key_id : Nat) (host_ids : List Nat) (script_type : String)
    (job : JobRow)
    (hjob : s.jobs.find? (fun x => x.id == job_id) = some job)
    (htpl : (s.templates.find? (fun t => t.id == template_id)).isSome = true)
    (hkey : s.sshKeys.contains key_id = true)
    (hhosts : (s.hosts.filter (fun h => host_ids.contains h.id)).isEmpty = false)
    (hfresh : ∀ l ∈ s.jobLogs, l.job_id ≠ job.id) :
    C7Conclusion kp conn s job_id template_id key_id host_ids script_type job := by
  have hfilter : (s.jobLogs ++ fanOutNewLogs kp conn
        (s.hosts.filter (fun h => host_ids.contains h.id)) script_type job.id
        s.nextJobLogId).filter (fun l => l.job_id == job.id)
      = fanOutNewLogs kp conn (s.hosts.filter (fun h => host_ids.contains h.id))
          script_type job.id s.nextJobLogId := by
    rw [List.filter_append]
    have h1 : s.jobLogs.filter (fun l => l.job_id == job.id) = [] := by
      rw [List.filter_eq_nil_iff]
      intro l hl hbe
      exact hfresh l hl (by simpa using hbe)
    have h2 : (fanOutNewLogs kp conn (s.hosts.filter (fun h => host_ids.contains h.id))
          script_type job.id s.nextJobLogId).filter (fun l => l.job_id == job.id)
        = fanOutNewLogs kp conn (s.hosts.filter (fun h => host_ids.contains h.id))
            script_type job.id s.nextJobLogId := by
      rw [List.filter_eq_self]
      intro l hl
      have hid := fanOut_job_id kp conn
        (s.hosts.filter (fun h => host_ids.contains h.id)) script_type job.id
        s.nextJobLogId l hl
      simp [hid]
    rw [h1, h2, List.nil_append]
  have hpost : run_job_thread kp conn s job_id template_id key_id host_ids script_type
      = { s with
            jobs := setJobStatus s.jobs job_id (rollup ((s.jobLogs ++ fanOutNewLogs kp conn
              (s.hosts.filter (fun h => host_ids.contains h.id)) script_type job.id
              s.nextJobLogId).filter (fun l => l.job_id == job.id))),
            jobLogs := s.jobLogs ++ fanOutNewLogs kp conn
              (s.hosts.filter (fun h => host_ids.contains h.id)) script_type job.id
              s.nextJobLogId,
            nextJobLogId := s.nextJobLogId + (fanOutNewLogs kp conn
              (s.hosts.filter (fun h => host_ids.contains h.id)) script_type job.id
              s.nextJobLogId).length } := by
    simp only [run_job_thread, hjob, htpl, hkey, hhosts, Bool.not_true, Bool.or_self,
      Bool.false_or, Bool.or_false, Bool.false_eq_true, if_false]
  unfold C7Conclusion
  refine ⟨?_, fanOut_length kp conn _ script_type job.id s.nextJobLogId, ?_, ?_, ?_⟩
  · rw [hpost]
  · rw [hpost]
    show (setJobStatus s.jobs job_id _).find? (fun x => x.id == job_id) = _
    rw [hfilter]
    exact find?_setJobStatus s.jobs job_id _ job hjob
  · exact (rollup_iff _ (fanOut_status_cases kp conn _ script_type job.id s.nextJobLogId)).1
  · exact (rollup_iff _ (fanOut_status_cases kp conn _ script_type job.id s.nextJobLogId)).2

/-- The running job row used by the C7 witness. -/
def jobC7 : JobRow :=
  { id := 1, template_name := "uptime", status := "running" }

/-- A store ready for a one-host fan-out: one template, one key, one
host, one running job. -/
def sC7 : St :=
  { stEmpty with
      templates := [{ id := 1, name := "uptime", content := "uptime", script_type := "bash" }],
      sshKeys := [1],
      hosts := [hostA],
      jobs := [jobC7] }

/-- Witness for C7_fanout_rollup on the one-host store. -/
theorem C7_fanout_rollup_witness :
    (sC7.jobs.find? (fun x => x.id == 1) = some jobC7 ∧
     (sC7.templates.find? (fun t => t.id == 1)).isSome = true ∧
     sC7.sshKeys.contains 1 = true ∧
     (sC7.hosts.filter (fun h => [1].contains h.id)).isEmpty = false ∧
     (∀ l ∈ sC7.jobLogs, l.job_id ≠ jobC7.id)) ∧
    C7Conclusion true connOk sC7 1 1 1 [1] ("bash") jobC7 :=
  ⟨⟨by decide, by decide, by decide, by decide, by decide⟩,
   C7_fanout_rollup true connOk sC7 1 1 1 [1] ("bash") jobC7 (by decide) (by decide)
     (by decide) (by decide) (by decide)⟩

/-- Bridge between `List.contains` and membership on `Nat` lists. -/
theorem nat_contains_iff (l : List Nat) (x : Nat) : l.contains x = true ↔ x ∈ l := by
  simp

/-- A retained row is among the `limit` most recent rows. -/
theorem mem_keep_of_mem_retained (logs : List CronLogRow) (limit : Nat)
    (hnodup : (logs.map (fun l => l.id)).Nodup) :
    ∀ k ∈ retainedLogs logs limit,
      k ∈ (List.insertionSort newestFirst logs).take limit := by
  intro k hk
  rw [retainedLogs, List.mem_filter] at hk
  obtain ⟨hkl, hkc⟩ := hk
  rw [nat_contains_iff] at hkc
  rw [keptIds, List.mem_map] at hkc
  obtain ⟨k2, hk2, hk2id⟩ := hkc
  have hk2sorted : k2 ∈ List.insertionSort newestFirst logs :=
    (List.take_sublist limit _).subset hk2
  have hk2logs : k2 ∈ logs :=
    (List.perm_insertionSort newestFirst logs).mem_iff.mp hk2sorted
  have hk2k : k2 = k := List.inj_on_of_nodup_map hnodup hk2logs hkl hk2id
  rw [← hk2k]
  exact hk2

/-- A deleted row lies in the dropped (older) part of the sorted
list. -/
theorem mem_drop_of_not_retained (logs : List CronLogRow) (limit : Nat) :
    ∀ d ∈ logs, d ∉ retainedLogs logs limit →
      d ∈ (List.insertionSort newestFirst logs).drop limit := by
  intro d hd hdnot
  have hdsorted : d ∈ List.insertionSort newestFirst logs :=
    (List.perm_insertionSort newestFirst logs).mem_iff.mpr hd
  rw [← List.take_append_drop limit (List.insertionSort newestFirst logs),
    List.mem_append] at hdsorted
  rcases hdsorted with hdk | hdd
  · exfalso
    apply hdnot
    rw [retainedLogs, List.mem_filter]
    refine ⟨hd, ?_⟩
    rw [nat_contains_iff, keptIds, List.mem_map]
    exact ⟨d, hdk, rfl⟩
  · exact hdd

/-- With distinct primary keys, the bulk delete leaves exactly `limit`
rows when the table held more than `limit`. -/
theorem retained_length (logs : List CronLogRow) (limit : Nat)
    (hnodup : (logs.map (fun l => l.id)).Nodup) (hgt : limit < logs.length) :
    (retainedLogs logs limit).length = limit := by
  have hperm := List.perm_insertionSort newestFirst logs
  have hnodupS : ((List.insertionSort newestFirst logs).map (fun l => l.id)).Nodup :=
    ((hperm.map (fun l => l.id)).symm).nodup hnodup
  rw [retainedLogs, ← List.countP_eq_length_filter]
  rw [← List.Perm.countP_eq _ hperm]
  rw [← List.take_append_drop limit (List.insertionSort newestFirst logs),
    List.countP_append]
  have hk : List.countP (fun l => (keptIds logs limit).contains l.id)
      ((List.insertionSort newestFirst logs).take limit)
      = ((List.insertionSort newestFirst logs).take limit).length := by
    rw [List.countP_eq_length]
    intro a ha
    show (keptIds logs limit).contains a.id = true
    rw [nat_contains_iff, keptIds, List.mem_map]
    exact ⟨a, ha, rfl⟩
  have hmapsplit : ((List.insertionSort newestFirst logs).map (fun l => l.id))
      = ((List.insertionSort newestFirst logs).take limit).map (fun l => l.id)
        ++ ((List.insertionSort newestFirst logs).drop limit).map (fun l => l.id) := by
    rw [← List.map_append, List.take_append_drop]
  have hdisj := (List.nodup_append.mp (by rw [← hmapsplit]; exact hnodupS)).2.2
  have hd : List.countP (fun l => (keptIds logs limit).contains l.id)
      ((List.insertionSort newestFirst logs).drop limit) = 0 := by
    rw [List.countP_eq_zero]
    intro a ha hpa
    have haid : a.id ∈ keptIds logs limit := by
      rw [← nat_contains_iff]
      exact hpa
    unfold keptIds at haid
    exact hdisj haid (List.mem_map_of_mem _ ha)
  rw [hk, hd]
  rw [List.length_take, hperm.length_eq, Nat.add_zero]
  exact min_eq_left (Nat.le_of_lt hgt)

/-- Every deleted row is at most as recent as every retained row. -/
theorem retained_newest (logs : List CronLogRow) (limit : Nat)
    (hnodup : (logs.map (fun l => l.id)).Nodup) :
    ∀ k ∈ retainedLogs logs limit, ∀ d ∈ logs, d ∉ retainedLogs logs limit →
      d.created_at ≤ k.created_at := by
  intro k hk d hd hdnot
  have hkkeep := mem_keep_of_mem_retained logs limit hnodup k hk
  have hddrop := mem_drop_of_not_retained logs limit d hd hdnot
  have hsorted : List.Pairwise newestFirst (List.insertionSort newestFirst logs) :=
    List.sorted_insertionSort newestFirst logs
  have hpw : List.Pairwise newestFirst
      ((List.insertionSort newestFirst logs).take limit
        ++ (List.insertionSort newestFirst logs).drop limit) := by
    rw [List.take_append_drop]
    exact hsorted
  exact (List.pairwise_append.mp hpw).2.2 k hkkeep d hddrop

/-- The conclusion of claim C8 at a given store: above the limit the
sweep leaves exactly `limit` rows (the newest by `created_at`) and
reports the number deleted; at or below the limit, with limit 0, or
with no settings row it is a no-op; and the ad-hoc `job_log` table is
never touched. -/
def C8Conclusion (s : St) : Prop :=
  (∀ st : SettingsRow, s.settings = some st → 0 < st.cron_history_limit →
     st.cron_history_limit < s.cronLogs.length →
     ((cleanup_old_cron_history s).1).cronLogs.length = st.cron_history_limit ∧
     (∀ k ∈ ((cleanup_old_cron_history s).1).cronLogs, ∀ d ∈ s.cronLogs,
        d ∉ ((cleanup_old_cron_history s).1).cronLogs → d.created_at ≤ k.created_at) ∧
     (cleanup_old_cron_history s).2 = s.cronLogs.length - st.cron_history_limit) ∧
  (∀ st : SettingsRow, s.settings = some st →
     (s.cronLogs.length ≤ st.cron_history_limit ∨ st.cron_history_limit = 0) →
     (cleanup_old_cron_history s).1 = s ∧ (cleanup_old_cron_history s).2 = 0) ∧
  (s.settings = none →
     (cleanup_old_cron_history s).1 = s ∧ (cleanup_old_cron_history s).2 = 0) ∧
  ((cleanup_old_cron_history s).1).jobLogs = s.jobLogs

/-- Claim C8: the retention sweep keeps exactly the `limit` newest
cron logs when over the limit, is a no-op at or below the limit or
with limit 0 or no settings row, and never touches ad-hoc job logs. -/
theorem C8_retention_sweep (s : St)
    (hnodup : (s.cronLogs.map (fun l => l.id)).Nodup) :
    C8Conclusion s := by
  unfold C8Conclusion
  refine ⟨?_, ?_, ?_, ?_⟩
  · intro st hset hpos hgt
    have h0 : ¬ st.cron_history_limit = 0 := by omega
    have hle : ¬ s.cronLogs.length ≤ st.cron_history_limit := by omega
    have hcl : cleanup_old_cron_history s
        = ({ s with cronLogs := retainedLogs s.cronLogs st.cron_history_limit },
           s.cronLogs.length - (retainedLogs s.cronLogs st.cron_history_limit).length) := by
      simp [cleanup_old_cron_history, hset, h0, hle]
    rw [hcl]
    have hlen := retained_length s.cronLogs st.cron_history_limit hnodup hgt
    refine ⟨hlen, retained_newest s.cronLogs st.cron_history_limit hnodup, ?_⟩
    show s.cronLogs.length - (retainedLogs s.cronLogs st.cron_history_limit).length
        = s.cronLogs.length - st.cron_history_limit
    rw [hlen]
  · intro st hset hdisj
    by_cases h0 : st.cron_history_limit = 0
    · constructor <;> simp [cleanup_old_cron_history, hset, h0]
    · have hle : s.cronLogs.length ≤ st.cron_history_limit := by
        rcases hdisj with hle | hz
        · exact hle
        · exact absurd hz h0
      constructor <;> simp [cleanup_old_cron_history, hset, h0, hle]
  · intro hset
    constructor <;> simp [cleanup_old_cron_history, hset]
  · rcases hset : s.settings with _ | st
    · simp [cleanup_old_cron_history, hset]
    · by_cases h0 : st.cron_history_limit = 0
      · simp [cleanup_old_cron_history, hset, h0]
      · by_cases hle : s.cronLogs.length ≤ st.cron_history_limit
        · simp [cleanup_old_cron_history, hset, h0, hle]
        · simp [cleanup_old_cron_history, hset, h0, hle]

/-- A store with a retention limit of 2 and three cron logs of
distinct ids and timestamps. -/
def sC8 : St :=
  { stEmpty with
      settings := some { cron_history_limit := 2 },
      cronLogs := [
        { id := 1, cron_job_id := 1, hostname := "h", stdout := "", stderr := "",
          status := "success", created_at := 10 },
        { id := 2, cron_job_id := 1, hostname := "h", stdout := "", stderr := "",
          status := "success", created_at := 20 },
        { id := 3, cron_job_id := 1, hostname := "h", stdout := "", stderr := "",
          status := "success", created_at := 30 }] }

/-- Witness for C8_retention_sweep on the three-row store. -/
theorem C8_retention_sweep_witness :
    (sC8.cronLogs.map (fun l => l.id)).Nodup ∧ C8Conclusion sC8 :=
  ⟨by decide, C8_retention_sweep sC8 (by decide)⟩
